import Mathlib

/-!
Verification development for `assets/images/create_splash.py` of the
CurlMap repository.

The script procedurally renders a splash-screen bitmap with PIL
(`Image.new` with mode RGB at 1284x2778, an `ImageDraw` handle, per-pixel
gradient fill, ellipse/polygon fills, a best-effort text block wrapped in
`try/except`, then `img.save` plus three `img.resize(...).save` calls).

The embedding below mirrors the script in two layers:

* a *command/event* layer: the sequence of drawing commands issued against
  the canvas, and the sequence of externally visible events (printed
  messages and file saves), parametric in which fallible library calls
  raise an exception;
* a *pixel* layer: the interpretation of point and ellipse commands as
  updates of a pixel grid, following PIL semantics.  The canvas is created
  in mode RGB, so `ImageDraw` stores only the R, G, B components of a
  fill; a fourth (alpha) component of a fill tuple is discarded and no
  compositing takes place (`Fill.toColor` below).

Trigonometric functions (`math.sin`, `math.cos` applied to
`math.radians`) are kept abstract: the curl definitions are parametric in
`sinDeg cosDeg : ℚ → ℚ`, the sine and cosine of an angle given in
degrees.  All geometric facts proved here hold for every pair of
functions satisfying the Pythagorean bound.
-/

namespace CreateSplash

/-- An 8-bit RGB color as stored in a pixel of a mode-RGB PIL image. -/
structure Color where
  r : Nat
  g : Nat
  b : Nat
deriving DecidableEq

/-- A fill argument of a drawing call: R, G, B and an optional fourth
(alpha) component, as in the 3- and 4-tuples the script passes. -/
structure Fill where
  r : Nat
  g : Nat
  b : Nat
  a : Option Nat
deriving DecidableEq

/-- PIL semantics of storing a fill into a mode-RGB image: only the
R, G, B components are kept; an alpha component is discarded (ImageDraw
does not alpha-composite on an RGB image). -/
def Fill.toColor (f : Fill) : Color := ⟨f.r, f.g, f.b⟩

/-- A drawing command issued against the canvas, in source order:
`draw.point`, `draw.ellipse` (with its bounding box), `draw.polygon`,
`draw.text`. -/
inductive Cmd where
  | point (x y : Nat) (f : Fill)
  | ellipse (x0 y0 x1 y1 : ℚ) (f : Fill)
  | polygon (pts : List (ℚ × ℚ)) (f : Fill)
  | text (x y : ℚ) (s : String) (f : Fill)
deriving DecidableEq

/-- The provenance of the pixel content of an image: either the in-memory
canvas described by its command list, or the result of `img.resize`
applied to another content (PIL `resize` resamples the whole source
image to the requested size; it never crops). -/
inductive ImgContent where
  | canvas (cmds : List Cmd)
  | resized (src : ImgContent) (w h : Nat)
deriving DecidableEq

/-- A PIL image value: its size and its pixel-content provenance. -/
structure Img where
  width : Nat
  height : Nat
  content : ImgContent
deriving DecidableEq

/-- `img.resize((w, h), Image.Resampling.LANCZOS)`: a new image of the
requested size whose content is the full source content, resampled. -/
def Img.resize (i : Img) (w h : Nat) : Img := ⟨w, h, .resized i.content w h⟩

/-- An externally visible event of a run: a printed message or a saved
file (`img.save` with a file name and the PNG format). -/
inductive Event where
  | print (s : String)
  | save (name : String) (img : Img)
deriving DecidableEq

-- ## Constants of the script

/-- `width = 1284`. -/
def width : Nat := 1284

/-- `height = 2778`. -/
def height : Nat := 2778

/-- `center_x = width // 2`. -/
def centerX : Nat := width / 2

/-- `center_y = height // 2 - 200`. -/
def centerY : Nat := height / 2 - 200

/-- `logo_radius = 200`. -/
def logoRadius : Nat := 200

/-- `curl_center_x = center_x`. -/
def curlCenterX : ℚ := (centerX : ℚ)

/-- `curl_center_y = center_y - 30`. -/
def curlCenterY : ℚ := (centerY : ℚ) - 30

-- ## Gradient background

/-- The fill computed for row `y` of the gradient loop:
`ratio = y / h`, `r = int(46 + (168 - 46) * ratio)`,
`g = int(7 + (85 - 7) * ratio)`, `b = int(63 + (247 - 63) * ratio)`.
`int` truncation of these nonnegative values is floor, i.e. `Nat`
division. -/
def gradFill (h y : Nat) : Fill :=
  ⟨46 + ((168 - 46) * y) / h, 7 + ((85 - 7) * y) / h, 63 + ((247 - 63) * y) / h, none⟩

/-- The inner loop `for x in range(width): draw.point((x, y), (r, g, b))`
of row `y`. -/
def rowCmds (y : Nat) : List Cmd :=
  (List.range width).map (fun x => Cmd.point x y (gradFill height y))

/-- The whole background loop `for y in range(height): ...`, as the
sequence of point commands it issues. -/
def bgCmds : List Cmd := ((List.range height).map rowCmds).flatten

-- ## Decorative (ambient) circles

/-- The `circles` list of the script: `(x, y, r, color)` with
low-alpha white fills. -/
def circles : List (ℚ × ℚ × ℚ × Fill) :=
  [(200, 300, 60, ⟨255, 255, 255, some 25⟩),
   (1000, 400, 45, ⟨255, 255, 255, some 35⟩),
   (150, 2200, 75, ⟨255, 255, 255, some 20⟩),
   (1100, 2000, 50, ⟨255, 255, 255, some 30⟩)]

/-- `for x, y, r, color in circles: draw.ellipse([x-r, y-r, x+r, y+r],
fill=color)`. -/
def circleCmds : List Cmd :=
  circles.map (fun t => Cmd.ellipse (t.1 - t.2.2.1) (t.2.1 - t.2.2.1)
    (t.1 + t.2.2.1) (t.2.1 + t.2.2.1) t.2.2.2)

-- ## Logo glow and disk

/-- The outer glow loop: `for i in range(3)`, `alpha = 50 - i * 15`,
`radius = logo_radius + i * 20`, ellipse on the bounding box around the
logo center. -/
def glowCmds : List Cmd :=
  (List.range 3).map (fun (i : Nat) =>
    let alpha : Nat := 50 - i * 15
    let radius : ℚ := (logoRadius : ℚ) + (i : ℚ) * 20
    Cmd.ellipse ((centerX : ℚ) - radius) ((centerY : ℚ) - radius)
      ((centerX : ℚ) + radius) ((centerY : ℚ) + radius)
      ⟨255, 255, 255, some alpha⟩)

/-- The main logo circle: opaque white, radius `logo_radius`. -/
def logoCmd : Cmd :=
  Cmd.ellipse ((centerX : ℚ) - (logoRadius : ℚ)) ((centerY : ℚ) - (logoRadius : ℚ))
    ((centerX : ℚ) + (logoRadius : ℚ)) ((centerY : ℚ) + (logoRadius : ℚ))
    ⟨255, 255, 255, none⟩

-- ## Curls

/-- Python `range(start, stop, step)` for positive `step`. -/
def pyRange (start stop step : Nat) : List Nat :=
  (List.range ((stop - start + step - 1) / step)).map (fun i => start + step * i)

/-- The primary-curl loop: `for angle in range(0, 270, 5)`,
`radius = 80 + 30 * sin(radians(angle * 2))`,
`x = curl_center_x + radius * cos(radians(angle))`,
`y = curl_center_y + radius * sin(radians(angle))`,
`curl_points.append((x, y))`.  `sinDeg`/`cosDeg` are sine and cosine of
an argument in degrees. -/
def curlPoints (sinDeg cosDeg : ℚ → ℚ) : List (ℚ × ℚ) :=
  (pyRange 0 270 5).foldl (fun pts angle =>
    let radius : ℚ := 80 + 30 * sinDeg ((angle : ℚ) * 2)
    pts ++ [(curlCenterX + radius * cosDeg (angle : ℚ),
             curlCenterY + radius * sinDeg (angle : ℚ))]) []

/-- `if len(curl_points) > 2: draw.polygon(curl_points, fill=(114, 9, 183))`. -/
def curlCmds (sinDeg cosDeg : ℚ → ℚ) : List Cmd :=
  if 2 < (curlPoints sinDeg cosDeg).length then
    [Cmd.polygon (curlPoints sinDeg cosDeg) ⟨114, 9, 183, none⟩]
  else []

/-- The secondary-curl loop: `for angle in range(30, 200, 8)`,
`radius = 50 + 20 * sin(radians(angle * 1.5))`, center offset
`(+60, -20)` from the primary curl center. -/
def curl2Points (sinDeg cosDeg : ℚ → ℚ) : List (ℚ × ℚ) :=
  (pyRange 30 200 8).foldl (fun pts angle =>
    let radius : ℚ := 50 + 20 * sinDeg ((angle : ℚ) * (3 / 2))
    pts ++ [(curlCenterX + 60 + radius * cosDeg (angle : ℚ),
             curlCenterY - 20 + radius * sinDeg (angle : ℚ))]) []

/-- `if len(curl2_points) > 2: draw.polygon(curl2_points, fill=(168, 85, 247))`. -/
def curl2Cmds (sinDeg cosDeg : ℚ → ℚ) : List Cmd :=
  if 2 < (curl2Points sinDeg cosDeg).length then
    [Cmd.polygon (curl2Points sinDeg cosDeg) ⟨168, 85, 247, none⟩]
  else []

-- ## Scissors accent

/-- `scissors_x = center_x + 80`. -/
def scissorsX : ℚ := (centerX : ℚ) + 80

/-- `scissors_y = center_y + 80`. -/
def scissorsY : ℚ := (centerY : ℚ) + 80

/-- The two scissors-blade ellipses, coral `(255, 107, 107)`. -/
def scissorCmds : List Cmd :=
  [Cmd.ellipse (scissorsX - 15) (scissorsY - 15) (scissorsX + 15) (scissorsY + 15)
     ⟨255, 107, 107, none⟩,
   Cmd.ellipse (scissorsX + 20) (scissorsY - 15) (scissorsX + 50) (scissorsY + 15)
     ⟨255, 107, 107, none⟩]

-- ## Text block and the fallible environment

/-- `title_y = center_y + 300`. -/
def titleY : ℚ := (centerY : ℚ) + 300

/-- `subtitle_y = title_y + 60`. -/
def subtitleY : ℚ := titleY + 60

/-- `dot_y = subtitle_y + 100`. -/
def dotY : ℚ := subtitleY + 100

/-- The title draw: `draw.text((center_x, title_y), "CurlMap",
fill=(255, 255, 255), anchor="mm", font=None)`. -/
def titleCmd : Cmd := Cmd.text (centerX : ℚ) titleY "CurlMap" ⟨255, 255, 255, none⟩

/-- The subtitle draw. -/
def subtitleCmd : Cmd :=
  Cmd.text (centerX : ℚ) subtitleY "Hair Stylist Platform" ⟨255, 255, 255, none⟩

/-- The `i`-th loading dot: `x_offset` from `[-45, 0, 45]`,
`alpha = 150 + (i * 30) % 105`, a 16x16 ellipse around
`(center_x + x_offset, dot_y)`. -/
def dotCmd (i : Nat) (xOff : ℚ) : Cmd :=
  Cmd.ellipse ((centerX : ℚ) + xOff - 8) (dotY - 8)
    ((centerX : ℚ) + xOff + 8) (dotY + 8)
    ⟨255, 255, 255, some (150 + (i * 30) % 105)⟩

/-- The ambient conditions of one invocation.  The script takes no
arguments and reads no input; what can vary between runs is which
library calls raise (`Ok` flags — the `try` block guards exactly the
five text-step calls, and each `img.save` can fail on the file system)
and machine state the script never consults (`time`, `rand`). -/
structure Env where
  titleOk : Bool
  subtitleOk : Bool
  dotOk : Nat → Bool
  saveOk : String → Bool
  time : Nat
  rand : Nat → Nat

/-- The five fallible calls of the `try` block, in source order, each
paired with the command it draws when it does not raise. -/
def textSteps (env : Env) : List (Bool × Cmd) :=
  [(env.titleOk, titleCmd),
   (env.subtitleOk, subtitleCmd),
   (env.dotOk 0, dotCmd 0 (-45)),
   (env.dotOk 1, dotCmd 1 0),
   (env.dotOk 2, dotCmd 2 45)]

/-- Executing the `try` block: the calls run in order; the commands drawn
before the first raising call stay on the canvas; the first raising call
aborts the rest of the block.  Returns the drawn commands and whether the
block completed without an exception. -/
def runTry : List (Bool × Cmd) → List Cmd × Bool
  | [] => ([], true)
  | (ok, cmd) :: rest =>
    if ok then
      let r := runTry rest
      (cmd :: r.1, r.2)
    else ([], false)

/-- `textOk env` iff no call of the text block raises. -/
def textOk (env : Env) : Bool :=
  env.titleOk && (env.subtitleOk && (env.dotOk 0 && (env.dotOk 1 && env.dotOk 2)))

/-- All drawing commands issued before the text block, in source order:
background, decorative circles, glow, logo disk, curls, scissors. -/
def baseCmds (sinDeg cosDeg : ℚ → ℚ) : List Cmd :=
  bgCmds ++ circleCmds ++ glowCmds ++ [logoCmd] ++
    curlCmds sinDeg cosDeg ++ curl2Cmds sinDeg cosDeg ++ scissorCmds

/-- The file names written, in save order. -/
def outNames : List String :=
  ["splash.png", "adaptive-icon.png", "icon.png", "notification-icon.png"]

/-- `create_splash_screen()`: draws the canvas, runs the guarded text
block, then saves `splash.png` and the three `img.resize(...)`
derivatives.  An exception of a save call is not caught anywhere, so it
aborts the run (`Except.error`); an exception inside the text block is
caught, a diagnostic is printed, and execution continues. -/
def run (sinDeg cosDeg : ℚ → ℚ) (env : Env) : Except String (List Event) :=
  let t := runTry (textSteps env)
  let img : Img := ⟨width, height, .canvas (baseCmds sinDeg cosDeg ++ t.1)⟩
  let pre : List Event := if t.2 then [] else [Event.print "Text rendering failed"]
  if env.saveOk "splash.png" then
    if env.saveOk "adaptive-icon.png" then
      if env.saveOk "icon.png" then
        if env.saveOk "notification-icon.png" then
          Except.ok (pre ++
            [Event.save "splash.png" img,
             Event.print "Splash screen created as splash.png",
             Event.save "adaptive-icon.png" (img.resize 1024 1024),
             Event.save "icon.png" (img.resize 512 512),
             Event.save "notification-icon.png" (img.resize 96 96),
             Event.print "All splash screen assets created successfully!"])
        else Except.error "notification-icon.png"
      else Except.error "icon.png"
    else Except.error "adaptive-icon.png"
  else Except.error "splash.png"

/-- The files a run writes: name, width, height and pixel content of each
`save` event, in order. -/
def savedFiles : List Event → List (String × Nat × Nat × ImgContent)
  | [] => []
  | Event.save n img :: t => (n, img.width, img.height, img.content) :: savedFiles t
  | Event.print _ :: t => savedFiles t

-- ## Pixel semantics

/-- The pixel grid of the mode-RGB canvas. -/
def Canvas : Type := Nat → Nat → Color

/-- `Image.new` with mode RGB and size `(w, h)` with no color argument: all pixels black. -/
def initCanvas : Canvas := fun _ _ => ⟨0, 0, 0⟩

/-- `draw.point((px, py), color)`: overwrite one pixel. -/
def setPix (cv : Canvas) (px py : Nat) (col : Color) : Canvas :=
  fun x y => if x = px ∧ y = py then col else cv x y

/-- Overwrite every pixel of row `py` with column index `< w`. -/
def setRow (cv : Canvas) (py : Nat) (col : Color) (w : Nat) : Canvas :=
  fun x y => if y = py ∧ x < w then col else cv x y

/-- Membership of a point in the (closed) ellipse inscribed in the
bounding box `[x0, y0, x1, y1]`, the region a `draw.ellipse` fill
paints. -/
def inEll (x0 y0 x1 y1 px py : ℚ) : Prop :=
  ((y1 - y0) / 2) ^ 2 * (px - (x0 + x1) / 2) ^ 2 +
      ((x1 - x0) / 2) ^ 2 * (py - (y0 + y1) / 2) ^ 2 ≤
    ((x1 - x0) / 2) ^ 2 * ((y1 - y0) / 2) ^ 2

instance (x0 y0 x1 y1 px py : ℚ) : Decidable (inEll x0 y0 x1 y1 px py) := by
  unfold inEll; infer_instance

/-- Pixel effect of one command on the RGB canvas.  `draw.point` writes
one pixel; `draw.ellipse` overwrites every pixel of the inscribed
ellipse with the R, G, B components of its fill (no compositing on an
RGB image).  Polygon and text rasterization is not needed by the
pixel-level claims, which only interpret the background and
ambient-circle prefix of the command list; those commands leave the
grid of this interpretation unchanged. -/
def applyCmd (cv : Canvas) : Cmd → Canvas
  | Cmd.point px py f => setPix cv px py f.toColor
  | Cmd.ellipse x0 y0 x1 y1 f =>
      fun x y => if inEll x0 y0 x1 y1 (x : ℚ) (y : ℚ) then f.toColor else cv x y
  | Cmd.polygon _ _ => cv
  | Cmd.text _ _ _ _ => cv

/-- The pixel grid after the background loop. -/
def bgCanvas : Canvas := bgCmds.foldl applyCmd initCanvas

/-- The pixel grid after the background loop and the four decorative
circles. -/
def canvasAfterCircles : Canvas := (bgCmds ++ circleCmds).foldl applyCmd initCanvas

/-- The row-fill background described by the spec: for every row `y` in
`[0, height)`, fill the entire row with the interpolated color of that
row. -/
def bgRowFill : Canvas :=
  (List.range height).foldl
    (fun cv y => setRow cv y (gradFill height y).toColor width) initCanvas

/-- The alpha blend the claim describes for a translucent circle: source
over background at alpha `a` (integer compositing out of 255). -/
def alphaBlend (bg fg : Color) (a : Nat) : Color :=
  ⟨(bg.r * (255 - a) + fg.r * a) / 255,
   (bg.g * (255 - a) + fg.g * a) / 255,
   (bg.b * (255 - a) + fg.b * a) / 255⟩

-- ## Background lemmas

/-- A loop of the shape `acc.append [f x]` is `map`. -/
lemma foldl_append_eq_map {α β : Type} (f : α → β) :
    ∀ (l : List α) (init : List β),
      l.foldl (fun acc x => acc ++ [f x]) init = init ++ l.map f := by
  intro l
  induction l with
  | nil => intro init; simp
  | cons a t ih =>
    intro init
    rw [List.foldl_cons, ih]
    simp

/-- One row of point commands paints exactly the row. -/
lemma row_fold (yr : Nat) (f : Fill) :
    ∀ (w : Nat) (cv : Canvas),
      ((List.range w).map (fun x => Cmd.point x yr f)).foldl applyCmd cv =
        setRow cv yr f.toColor w := by
  intro w
  induction w with
  | zero =>
    intro cv
    funext a b
    simp [setRow]
  | succ n ih =>
    intro cv
    rw [List.range_succ, List.map_append, List.foldl_append, ih]
    funext a b
    simp only [List.map_cons, List.map_nil, List.foldl_cons, List.foldl_nil,
      applyCmd, setPix, setRow]
    split_ifs <;> first | rfl | omega

/-- The whole per-pixel background loop equals the per-row fill loop. -/
lemma bgCanvas_eq_bgRowFill : bgCanvas = bgRowFill := by
  unfold bgCanvas bgRowFill bgCmds
  rw [List.foldl_flatten]
  rw [List.foldl_map]
  exact List.foldl_ext _ _ initCanvas (fun cv y _ => row_fold y (gradFill height y) width cv)

/-- Evaluation of the row-fill loop at a pixel. -/
lemma rowFill_eval :
    ∀ (l : List Nat) (cv : Canvas) (x y : Nat),
      (l.foldl (fun cv y => setRow cv y (gradFill height y).toColor width) cv) x y =
        if y ∈ l ∧ x < width then (gradFill height y).toColor else cv x y := by
  intro l
  induction l with
  | nil => intro cv x y; simp
  | cons a t ih =>
    intro cv x y
    rw [List.foldl_cons, ih]
    by_cases h1 : y ∈ t ∧ x < width
    · rw [if_pos h1, if_pos ⟨List.mem_cons_of_mem a h1.1, h1.2⟩]
    · by_cases h2 : y = a ∧ x < width
      · obtain ⟨hy, hx⟩ := h2
        subst hy
        rw [if_neg h1]
        simp [setRow, hx, List.mem_cons]
      · rw [if_neg h1]
        show (if y = a ∧ x < width then (gradFill height a).toColor else cv x y) = _
        rw [if_neg h2, if_neg]
        rintro ⟨hmem, hx⟩
        rcases List.mem_cons.mp hmem with h3 | h3
        · exact h2 ⟨h3, hx⟩
        · exact h1 ⟨h3, hx⟩

/-- Closed form of the background canvas at a pixel. -/
lemma bgCanvas_eval (x y : Nat) :
    bgCanvas x y =
      if y < height ∧ x < width then (gradFill height y).toColor else ⟨0, 0, 0⟩ := by
  rw [bgCanvas_eq_bgRowFill]
  unfold bgRowFill
  rw [rowFill_eval]
  simp [List.mem_range, initCanvas]

-- ## Curl lemmas

/-- The primary-curl loop in `map` form. -/
lemma curlPoints_eq_map (sinDeg cosDeg : ℚ → ℚ) :
    curlPoints sinDeg cosDeg =
      (pyRange 0 270 5).map (fun angle =>
        (curlCenterX + (80 + 30 * sinDeg ((angle : ℚ) * 2)) * cosDeg (angle : ℚ),
         curlCenterY + (80 + 30 * sinDeg ((angle : ℚ) * 2)) * sinDeg (angle : ℚ))) := by
  unfold curlPoints
  rw [foldl_append_eq_map]
  simp

/-- The secondary-curl loop in `map` form. -/
lemma curl2Points_eq_map (sinDeg cosDeg : ℚ → ℚ) :
    curl2Points sinDeg cosDeg =
      (pyRange 30 200 8).map (fun angle =>
        (curlCenterX + 60 + (50 + 20 * sinDeg ((angle : ℚ) * (3 / 2))) * cosDeg (angle : ℚ),
         curlCenterY - 20 + (50 + 20 * sinDeg ((angle : ℚ) * (3 / 2))) * sinDeg (angle : ℚ))) := by
  unfold curl2Points
  rw [foldl_append_eq_map]
  simp

/-- The primary curl samples 54 angles. -/
lemma curlPoints_length (sinDeg cosDeg : ℚ → ℚ) :
    (curlPoints sinDeg cosDeg).length = 54 := by
  rw [curlPoints_eq_map, List.length_map]
  rfl

/-- The secondary curl samples 22 angles. -/
lemma curl2Points_length (sinDeg cosDeg : ℚ → ℚ) :
    (curl2Points sinDeg cosDeg).length = 22 := by
  rw [curl2Points_eq_map, List.length_map]
  rfl

-- ## Geometry helpers

/-- Strict membership in the open logo disk of radius `logo_radius`
around the logo center. -/
def inLogoDisk (p : ℚ × ℚ) : Prop :=
  (p.1 - (centerX : ℚ)) ^ 2 + (p.2 - (centerY : ℚ)) ^ 2 < (logoRadius : ℚ) ^ 2

/-- A primary-curl vertex is within 140 of the logo center: the sampled
radius lies in `[50, 110]` and the curl center sits 30 above the logo
center. -/
lemma curl1_bound (sa ca s2 : ℚ) (h1 : sa ^ 2 + ca ^ 2 ≤ 1) (h2 : s2 ^ 2 ≤ 1) :
    ((80 + 30 * s2) * ca) ^ 2 + ((80 + 30 * s2) * sa - 30) ^ 2 < 40000 := by
  have hs2a : -1 ≤ s2 := by nlinarith [sq_nonneg (s2 + 1)]
  have hs2b : s2 ≤ 1 := by nlinarith [sq_nonneg (s2 - 1)]
  have hr0 : (0 : ℚ) ≤ 80 + 30 * s2 := by linarith
  have hr : 80 + 30 * s2 ≤ 110 := by linarith
  have hsa2 : sa ^ 2 ≤ 1 := by nlinarith [sq_nonneg ca]
  have hsan : -1 ≤ sa := by nlinarith [sq_nonneg (sa + 1)]
  have hkey : (80 + 30 * s2) ^ 2 * (sa ^ 2 + ca ^ 2) ≤ (80 + 30 * s2) ^ 2 := by
    nlinarith [sq_nonneg (80 + 30 * s2)]
  have hr2 : (80 + 30 * s2) ^ 2 ≤ 12100 := by nlinarith
  have hrs : -((80 + 30 * s2) * sa) ≤ 80 + 30 * s2 := by
    nlinarith [mul_nonneg hr0 (by linarith : (0 : ℚ) ≤ sa + 1)]
  nlinarith [hkey, hr2, hrs]

/-- A secondary-curl vertex is within about 149 of the logo center: the
sampled radius lies in `[30, 70]` and the curl-2 center is offset
`(60, -50)` from the logo center. -/
lemma curl2_bound (sa ca s15 : ℚ) (h1 : sa ^ 2 + ca ^ 2 ≤ 1) (h2 : s15 ^ 2 ≤ 1) :
    (60 + (50 + 20 * s15) * ca) ^ 2 + ((50 + 20 * s15) * sa - 50) ^ 2 < 40000 := by
  have hsa : -1 ≤ s15 := by nlinarith [sq_nonneg (s15 + 1)]
  have hsb : s15 ≤ 1 := by nlinarith [sq_nonneg (s15 - 1)]
  have hr0 : (0 : ℚ) ≤ 50 + 20 * s15 := by linarith
  have hr : 50 + 20 * s15 ≤ 70 := by linarith
  have hsa2 : sa ^ 2 ≤ 1 := by nlinarith [sq_nonneg ca]
  have hca2 : ca ^ 2 ≤ 1 := by nlinarith [sq_nonneg sa]
  have hsan : -1 ≤ sa := by nlinarith [sq_nonneg (sa + 1)]
  have hcab : ca ≤ 1 := by nlinarith [sq_nonneg (ca - 1)]
  have hkey : (50 + 20 * s15) ^ 2 * (sa ^ 2 + ca ^ 2) ≤ (50 + 20 * s15) ^ 2 := by
    nlinarith [sq_nonneg (50 + 20 * s15)]
  have hr2 : (50 + 20 * s15) ^ 2 ≤ 4900 := by nlinarith
  have hrs : -((50 + 20 * s15) * sa) ≤ 50 + 20 * s15 := by
    nlinarith [mul_nonneg hr0 (by linarith : (0 : ℚ) ≤ sa + 1)]
  have hrc : (50 + 20 * s15) * ca ≤ 70 := by
    calc (50 + 20 * s15) * ca ≤ (50 + 20 * s15) * 1 := by
          exact mul_le_mul_of_nonneg_left hcab hr0
    _ ≤ 70 := by linarith
  nlinarith [hkey, hr2, hrs, hrc]

-- ## Run lemmas

/-- The full-resolution image a run saves as `splash.png`. -/
def fullImg (sinDeg cosDeg : ℚ → ℚ) (env : Env) : Img :=
  ⟨width, height, .canvas (baseCmds sinDeg cosDeg ++ (runTry (textSteps env)).1)⟩

/-- The event list of a run in which every save succeeds. -/
def okEvents (sinDeg cosDeg : ℚ → ℚ) (env : Env) : List Event :=
  (if (runTry (textSteps env)).2 then ([] : List Event)
   else [Event.print "Text rendering failed"]) ++
  [Event.save "splash.png" (fullImg sinDeg cosDeg env),
   Event.print "Splash screen created as splash.png",
   Event.save "adaptive-icon.png" ((fullImg sinDeg cosDeg env).resize 1024 1024),
   Event.save "icon.png" ((fullImg sinDeg cosDeg env).resize 512 512),
   Event.save "notification-icon.png" ((fullImg sinDeg cosDeg env).resize 96 96),
   Event.print "All splash screen assets created successfully!"]

/-- When every save succeeds the run returns `okEvents`. -/
lemma run_ok (sinDeg cosDeg : ℚ → ℚ) (env : Env)
    (h1 : env.saveOk "splash.png" = true)
    (h2 : env.saveOk "adaptive-icon.png" = true)
    (h3 : env.saveOk "icon.png" = true)
    (h4 : env.saveOk "notification-icon.png" = true) :
    run sinDeg cosDeg env = Except.ok (okEvents sinDeg cosDeg env) := by
  unfold run okEvents fullImg
  rw [h1, h2, h3, h4]
  rfl

/-- `savedFiles` distributes over `++`. -/
lemma savedFiles_append (a b : List Event) :
    savedFiles (a ++ b) = savedFiles a ++ savedFiles b := by
  induction a with
  | nil => rfl
  | cons e t ih =>
    cases e with
    | print s => simpa [savedFiles] using ih
    | save n img => simpa [savedFiles] using ih

/-- The files of an all-saves-succeed run: the four outputs in order,
the three derived ones resampled from the full canvas. -/
lemma savedFiles_okEvents (sinDeg cosDeg : ℚ → ℚ) (env : Env) :
    savedFiles (okEvents sinDeg cosDeg env) =
      [("splash.png", width, height,
         ImgContent.canvas (baseCmds sinDeg cosDeg ++ (runTry (textSteps env)).1)),
       ("adaptive-icon.png", 1024, 1024,
         ImgContent.resized
           (ImgContent.canvas (baseCmds sinDeg cosDeg ++ (runTry (textSteps env)).1)) 1024 1024),
       ("icon.png", 512, 512,
         ImgContent.resized
           (ImgContent.canvas (baseCmds sinDeg cosDeg ++ (runTry (textSteps env)).1)) 512 512),
       ("notification-icon.png", 96, 96,
         ImgContent.resized
           (ImgContent.canvas (baseCmds sinDeg cosDeg ++ (runTry (textSteps env)).1)) 96 96)] := by
  unfold okEvents
  rw [savedFiles_append]
  cases (runTry (textSteps env)).2 <;> simp [savedFiles, Img.resize, fullImg]

/-- The text block raises somewhere iff not every flag is set. -/
lemma runTry_textSteps_snd (env : Env) :
    (runTry (textSteps env)).2 = textOk env := by
  unfold textSteps textOk
  cases env.titleOk <;> cases env.subtitleOk <;> cases h0 : env.dotOk 0 <;>
    cases h1 : env.dotOk 1 <;> cases h2 : env.dotOk 2 <;>
      simp [runTry, h0, h1, h2]

/-- When a save raises, the run aborts with an error. -/
lemma run_error (sinDeg cosDeg : ℚ → ℚ) (env : Env)
    (hfail : ∃ n ∈ outNames, env.saveOk n = false) :
    ∃ m, run sinDeg cosDeg env = Except.error m := by
  rcases hfail with ⟨n, hn, hfalse⟩
  simp only [outNames, List.mem_cons, List.not_mem_nil, or_false] at hn
  rcases hn with rfl | rfl | rfl | rfl
  · exact ⟨"splash.png", by simp [run, hfalse]⟩
  · cases h1 : env.saveOk "splash.png"
    · exact ⟨"splash.png", by simp [run, h1]⟩
    · exact ⟨"adaptive-icon.png", by simp [run, h1, hfalse]⟩
  · cases h1 : env.saveOk "splash.png"
    · exact ⟨"splash.png", by simp [run, h1]⟩
    · cases h2 : env.saveOk "adaptive-icon.png"
      · exact ⟨"adaptive-icon.png", by simp [run, h1, h2]⟩
      · exact ⟨"icon.png", by simp [run, h1, h2, hfalse]⟩
  · cases h1 : env.saveOk "splash.png"
    · exact ⟨"splash.png", by simp [run, h1]⟩
    · cases h2 : env.saveOk "adaptive-icon.png"
      · exact ⟨"adaptive-icon.png", by simp [run, h1, h2]⟩
      · cases h3 : env.saveOk "icon.png"
        · exact ⟨"icon.png", by simp [run, h1, h2, h3]⟩
        · exact ⟨"notification-icon.png", by simp [run, h1, h2, h3, hfalse]⟩

-- ## Spec-side definition for the primary-curl refinement claim

/-- Modelled from the spec text for the primary curl: sample the angle
from 0° to 270° in 5° steps, compute `radius = 80 + 30 * sin(2 * angle)`,
and convert to a Cartesian offset from the curl center, which is the
logo center `(width / 2, height / 2 - 200)` shifted up by 30 pixels. -/
def curlPointsSpec (sinDeg cosDeg : ℚ → ℚ) : List (ℚ × ℚ) :=
  (pyRange 0 270 5).map (fun angle =>
    let radius : ℚ := 80 + 30 * sinDeg (2 * (angle : ℚ))
    ((width : ℚ) / 2 + radius * cosDeg (angle : ℚ),
     ((height : ℚ) / 2 - 200 - 30) + radius * sinDeg (angle : ℚ)))

-- ## Witness environments

/-- An invocation in which no library call raises. -/
def envOk : Env := ⟨true, true, fun _ => true, fun _ => true, 0, fun _ => 0⟩

/-- An invocation in which the title draw raises and everything else
succeeds. -/
def envTitleFail : Env := ⟨false, true, fun _ => true, fun _ => true, 0, fun _ => 0⟩

/-- An invocation in which the subtitle draw raises and everything else
succeeds. -/
def envSubtitleFail : Env := ⟨true, false, fun _ => true, fun _ => true, 0, fun _ => 0⟩

/-- An invocation in which every save raises. -/
def envSaveFail : Env := ⟨true, true, fun _ => true, fun _ => false, 0, fun _ => 0⟩

-- ## Claims

/-- Claim C1: invoking the zero-argument entry point writes exactly four
image files, in this order and with these dimensions: `splash.png` at
1284x2778 (the full canvas), `adaptive-icon.png` at 1024x1024,
`icon.png` at 512x512 and `notification-icon.png` at 96x96, each derived
output resampled from the full canvas (never cropped), each target
strictly smaller than the canvas in both dimensions. -/
theorem claim_C1 (sinDeg cosDeg : ℚ → ℚ) (env : Env)
    (hsave : ∀ n ∈ outNames, env.saveOk n = true) :
    ∃ tr cv, run sinDeg cosDeg env = Except.ok tr ∧
      savedFiles tr =
        [("splash.png", width, height, ImgContent.canvas cv),
         ("adaptive-icon.png", 1024, 1024,
           ImgContent.resized (ImgContent.canvas cv) 1024 1024),
         ("icon.png", 512, 512, ImgContent.resized (ImgContent.canvas cv) 512 512),
         ("notification-icon.png", 96, 96,
           ImgContent.resized (ImgContent.canvas cv) 96 96)] ∧
      1024 < width ∧ 1024 < height ∧ 512 < width ∧ 512 < height ∧
        96 < width ∧ 96 < height := by
  have h1 : env.saveOk "splash.png" = true := hsave _ (by simp [outNames])
  have h2 : env.saveOk "adaptive-icon.png" = true := hsave _ (by simp [outNames])
  have h3 : env.saveOk "icon.png" = true := hsave _ (by simp [outNames])
  have h4 : env.saveOk "notification-icon.png" = true := hsave _ (by simp [outNames])
  refine ⟨okEvents sinDeg cosDeg env,
    baseCmds sinDeg cosDeg ++ (runTry (textSteps env)).1,
    run_ok sinDeg cosDeg env h1 h2 h3 h4,
    savedFiles_okEvents sinDeg cosDeg env, ?_⟩
  refine ⟨?_, ?_, ?_, ?_, ?_, ?_⟩ <;> norm_num [width, height]

/-- Claim C1 witness: the happy-path invocation. -/
theorem claim_C1_witness :
    ∃ tr cv, run (fun _ => 0) (fun _ => 0) envOk = Except.ok tr ∧
      savedFiles tr =
        [("splash.png", width, height, ImgContent.canvas cv),
         ("adaptive-icon.png", 1024, 1024,
           ImgContent.resized (ImgContent.canvas cv) 1024 1024),
         ("icon.png", 512, 512, ImgContent.resized (ImgContent.canvas cv) 512 512),
         ("notification-icon.png", 96, 96,
           ImgContent.resized (ImgContent.canvas cv) 96 96)] ∧
      1024 < width ∧ 1024 < height ∧ 512 < width ∧ 512 < height ∧
        96 < width ∧ 96 < height :=
  claim_C1 (fun _ => 0) (fun _ => 0) envOk (fun _ _ => rfl)

/-- Claim C2: an exception inside the text-rendering step does not abort
the run — it is caught, the diagnostic is printed, and the four output
files are still saved with their specified dimensions; an exception of a
save call (outside the guarded step) propagates and aborts the run. -/
theorem claim_C2 (sinDeg cosDeg : ℚ → ℚ) (env env2 : Env)
    (hsave : ∀ n ∈ outNames, env.saveOk n = true)
    (hfail : ∃ n ∈ outNames, env2.saveOk n = false) :
    (∃ tr cv, run sinDeg cosDeg env = Except.ok tr ∧
      savedFiles tr =
        [("splash.png", width, height, ImgContent.canvas cv),
         ("adaptive-icon.png", 1024, 1024,
           ImgContent.resized (ImgContent.canvas cv) 1024 1024),
         ("icon.png", 512, 512, ImgContent.resized (ImgContent.canvas cv) 512 512),
         ("notification-icon.png", 96, 96,
           ImgContent.resized (ImgContent.canvas cv) 96 96)] ∧
      (textOk env = false → Event.print "Text rendering failed" ∈ tr)) ∧
    (∃ m, run sinDeg cosDeg env2 = Except.error m) := by
  have h1 : env.saveOk "splash.png" = true := hsave _ (by simp [outNames])
  have h2 : env.saveOk "adaptive-icon.png" = true := hsave _ (by simp [outNames])
  have h3 : env.saveOk "icon.png" = true := hsave _ (by simp [outNames])
  have h4 : env.saveOk "notification-icon.png" = true := hsave _ (by simp [outNames])
  refine ⟨⟨okEvents sinDeg cosDeg env,
    baseCmds sinDeg cosDeg ++ (runTry (textSteps env)).1,
    run_ok sinDeg cosDeg env h1 h2 h3 h4,
    savedFiles_okEvents sinDeg cosDeg env, ?_⟩,
    run_error sinDeg cosDeg env2 hfail⟩
  intro htext
  have hsnd : (runTry (textSteps env)).2 = false := by
    rw [runTry_textSteps_snd, htext]
  simp [okEvents, hsnd]

/-- Claim C2 witness: a run whose title draw raises but whose saves all
succeed, against a run whose saves all fail. -/
theorem claim_C2_witness :
    (∃ tr cv, run (fun _ => 0) (fun _ => 0) envTitleFail = Except.ok tr ∧
      savedFiles tr =
        [("splash.png", width, height, ImgContent.canvas cv),
         ("adaptive-icon.png", 1024, 1024,
           ImgContent.resized (ImgContent.canvas cv) 1024 1024),
         ("icon.png", 512, 512, ImgContent.resized (ImgContent.canvas cv) 512 512),
         ("notification-icon.png", 96, 96,
           ImgContent.resized (ImgContent.canvas cv) 96 96)] ∧
      (textOk envTitleFail = false →
        Event.print "Text rendering failed" ∈ tr)) ∧
    (∃ m, run (fun _ => 0) (fun _ => 0) envSaveFail = Except.error m) :=
  claim_C2 (fun _ => 0) (fun _ => 0) envTitleFail envSaveFail (fun _ _ => rfl)
    ⟨"splash.png", by simp [outNames], rfl⟩

/-- Claim C4: the rendering is deterministic — the ambient machine state
the script never reads (`time`, `rand`) has no influence on the drawn
commands, the canvas or any saved output; two invocations under
identical conditions produce identical results. -/
theorem claim_C4 (sinDeg cosDeg : ℚ → ℚ) (tOk sOk : Bool) (dOk : Nat → Bool)
    (sv : String → Bool) (t1 t2 : Nat) (r1 r2 : Nat → Nat) :
    run sinDeg cosDeg ⟨tOk, sOk, dOk, sv, t1, r1⟩ =
      run sinDeg cosDeg ⟨tOk, sOk, dOk, sv, t2, r2⟩ := rfl

/-- Claim C4 witness: two invocations differing only in time and in the
random state. -/
theorem claim_C4_witness :
    run (fun _ => 0) (fun _ => 0) ⟨true, true, fun _ => true, fun _ => true, 3, fun n => n⟩ =
      run (fun _ => 0) (fun _ => 0)
        ⟨true, true, fun _ => true, fun _ => true, 5, fun _ => 9⟩ :=
  claim_C4 (fun _ => 0) (fun _ => 0) true true (fun _ => true) (fun _ => true)
    3 5 (fun n => n) (fun _ => 9)

/-- Claim C5: with the fixed angle ranges and steps, the primary curl has
54 sample points and the secondary 22, both above the guard threshold 2,
so both polygon fills are always executed and the skip branch is
unreachable. -/
theorem claim_C5 (sinDeg cosDeg : ℚ → ℚ) :
    (curlPoints sinDeg cosDeg).length = 54 ∧
    (curl2Points sinDeg cosDeg).length = 22 ∧
    2 < (curlPoints sinDeg cosDeg).length ∧
    2 < (curl2Points sinDeg cosDeg).length ∧
    curlCmds sinDeg cosDeg =
      [Cmd.polygon (curlPoints sinDeg cosDeg) ⟨114, 9, 183, none⟩] ∧
    curl2Cmds sinDeg cosDeg =
      [Cmd.polygon (curl2Points sinDeg cosDeg) ⟨168, 85, 247, none⟩] := by
  refine ⟨curlPoints_length sinDeg cosDeg, curl2Points_length sinDeg cosDeg, ?_, ?_, ?_, ?_⟩
  · rw [curlPoints_length]; norm_num
  · rw [curl2Points_length]; norm_num
  · unfold curlCmds
    rw [if_pos (by rw [curlPoints_length]; norm_num)]
  · unfold curl2Cmds
    rw [if_pos (by rw [curl2Points_length]; norm_num)]

/-- Claim C5 witness: the zero sine/cosine pair. -/
theorem claim_C5_witness :
    (curlPoints (fun _ => 0) (fun _ => 0)).length = 54 ∧
    (curl2Points (fun _ => 0) (fun _ => 0)).length = 22 ∧
    2 < (curlPoints (fun _ => 0) (fun _ => 0)).length ∧
    2 < (curl2Points (fun _ => 0) (fun _ => 0)).length ∧
    curlCmds (fun _ => 0) (fun _ => 0) =
      [Cmd.polygon (curlPoints (fun _ => 0) (fun _ => 0)) ⟨114, 9, 183, none⟩] ∧
    curl2Cmds (fun _ => 0) (fun _ => 0) =
      [Cmd.polygon (curl2Points (fun _ => 0) (fun _ => 0)) ⟨168, 85, 247, none⟩] :=
  claim_C5 (fun _ => 0) (fun _ => 0)

/-- Claim C6: the vertices of the primary curl polygon are exactly the points
the spec describes — angles 0° to 270° in 5° steps, radius
`80 + 30 * sin(2 * angle)`, offset from the curl center, which is the
logo center `(width / 2, height / 2 - 200)` shifted up by 30 pixels —
and the polygon is filled with opaque `(114, 9, 183)`. -/
theorem claim_C6 (sinDeg cosDeg : ℚ → ℚ) :
    curlPoints sinDeg cosDeg = curlPointsSpec sinDeg cosDeg ∧
    curlCmds sinDeg cosDeg =
      [Cmd.polygon (curlPoints sinDeg cosDeg) ⟨114, 9, 183, none⟩] := by
  constructor
  · rw [curlPoints_eq_map]
    unfold curlPointsSpec
    refine List.map_congr_left fun a _ => ?_
    rw [mul_comm (a : ℚ) 2]
    norm_num [curlCenterX, curlCenterY, centerX, centerY, width, height]
  · unfold curlCmds
    rw [if_pos (by rw [curlPoints_length]; norm_num)]

/-- Claim C6 witness: the zero sine/cosine pair. -/
theorem claim_C6_witness :
    curlPoints (fun _ => 0) (fun _ => 0) = curlPointsSpec (fun _ => 0) (fun _ => 0) ∧
    curlCmds (fun _ => 0) (fun _ => 0) =
      [Cmd.polygon (curlPoints (fun _ => 0) (fun _ => 0)) ⟨114, 9, 183, none⟩] :=
  claim_C6 (fun _ => 0) (fun _ => 0)

/-- Claim C10: the text step is not atomic — when the title draw succeeds
and the subtitle draw raises, the already-drawn title stays on the
canvas, the handler prints the diagnostic, and the title appears in the
content of all four saved files. -/
theorem claim_C10 (sinDeg cosDeg : ℚ → ℚ) (env : Env)
    (ht : env.titleOk = true) (hs : env.subtitleOk = false)
    (hsave : ∀ n ∈ outNames, env.saveOk n = true) :
    ∃ tr cv, run sinDeg cosDeg env = Except.ok tr ∧
      titleCmd ∈ cv ∧
      Event.print "Text rendering failed" ∈ tr ∧
      savedFiles tr =
        [("splash.png", width, height, ImgContent.canvas cv),
         ("adaptive-icon.png", 1024, 1024,
           ImgContent.resized (ImgContent.canvas cv) 1024 1024),
         ("icon.png", 512, 512, ImgContent.resized (ImgContent.canvas cv) 512 512),
         ("notification-icon.png", 96, 96,
           ImgContent.resized (ImgContent.canvas cv) 96 96)] := by
  have h1 : env.saveOk "splash.png" = true := hsave _ (by simp [outNames])
  have h2 : env.saveOk "adaptive-icon.png" = true := hsave _ (by simp [outNames])
  have h3 : env.saveOk "icon.png" = true := hsave _ (by simp [outNames])
  have h4 : env.saveOk "notification-icon.png" = true := hsave _ (by simp [outNames])
  have htt : runTry (textSteps env) = ([titleCmd], false) := by
    simp [textSteps, runTry, ht, hs]
  refine ⟨okEvents sinDeg cosDeg env,
    baseCmds sinDeg cosDeg ++ (runTry (textSteps env)).1,
    run_ok sinDeg cosDeg env h1 h2 h3 h4, ?_, ?_,
    savedFiles_okEvents sinDeg cosDeg env⟩
  · rw [htt]
    exact List.mem_append_right _ (List.mem_singleton.mpr rfl)
  · simp [okEvents, htt]

/-- Claim C10 witness: title succeeds, subtitle raises, saves succeed. -/
theorem claim_C10_witness :
    ∃ tr cv, run (fun _ => 0) (fun _ => 0) envSubtitleFail = Except.ok tr ∧
      titleCmd ∈ cv ∧
      Event.print "Text rendering failed" ∈ tr ∧
      savedFiles tr =
        [("splash.png", width, height, ImgContent.canvas cv),
         ("adaptive-icon.png", 1024, 1024,
           ImgContent.resized (ImgContent.canvas cv) 1024 1024),
         ("icon.png", 512, 512, ImgContent.resized (ImgContent.canvas cv) 512 512),
         ("notification-icon.png", 96, 96,
           ImgContent.resized (ImgContent.canvas cv) 96 96)] :=
  claim_C10 (fun _ => 0) (fun _ => 0) envSubtitleFail rfl rfl (fun _ _ => rfl)

/-- Claim C3: for the gradient of the script (`ratio = y / height`,
linear interpolation from `(46, 7, 63)` to `(168, 85, 247)`), the top
row equals the start color, the bottom row is within 1 per channel of
the end color (it is exactly `(167, 84, 246)`), and the channels are
monotone in the row index. -/
theorem claim_C3 (y1 y2 : Nat) (h12 : y1 ≤ y2) :
    gradFill height 0 = ⟨46, 7, 63, none⟩ ∧
    (gradFill height (height - 1)).r = 167 ∧
    (gradFill height (height - 1)).g = 84 ∧
    (gradFill height (height - 1)).b = 246 ∧
    168 - (gradFill height (height - 1)).r ≤ 1 ∧
    (gradFill height (height - 1)).r ≤ 168 ∧
    85 - (gradFill height (height - 1)).g ≤ 1 ∧
    (gradFill height (height - 1)).g ≤ 85 ∧
    247 - (gradFill height (height - 1)).b ≤ 1 ∧
    (gradFill height (height - 1)).b ≤ 247 ∧
    (gradFill height y1).r ≤ (gradFill height y2).r ∧
    (gradFill height y1).g ≤ (gradFill height y2).g ∧
    (gradFill height y1).b ≤ (gradFill height y2).b := by
  refine ⟨by decide, by decide, by decide, by decide, by decide, by decide,
    by decide, by decide, by decide, by decide, ?_, ?_, ?_⟩ <;>
    exact Nat.add_le_add_left
      (Nat.div_le_div_right (Nat.mul_le_mul_left _ h12)) _

/-- Claim C3 witness: rows 0 and 100. -/
theorem claim_C3_witness :
    gradFill height 0 = ⟨46, 7, 63, none⟩ ∧
    (gradFill height (height - 1)).r = 167 ∧
    (gradFill height (height - 1)).g = 84 ∧
    (gradFill height (height - 1)).b = 246 ∧
    168 - (gradFill height (height - 1)).r ≤ 1 ∧
    (gradFill height (height - 1)).r ≤ 168 ∧
    85 - (gradFill height (height - 1)).g ≤ 1 ∧
    (gradFill height (height - 1)).g ≤ 85 ∧
    247 - (gradFill height (height - 1)).b ≤ 1 ∧
    (gradFill height (height - 1)).b ≤ 247 ∧
    (gradFill height 0).r ≤ (gradFill height 100).r ∧
    (gradFill height 0).g ≤ (gradFill height 100).g ∧
    (gradFill height 0).b ≤ (gradFill height 100).b :=
  claim_C3 0 100 (by norm_num)

/-- Claim C8: the per-pixel background loop and the per-row fill produce
the same canvas, and every pixel `(x, y)` with `x < width`, `y < height`
carries the interpolated row color. -/
theorem claim_C8 :
    bgCanvas = bgRowFill ∧
    ∀ x y : Nat, x < width → y < height →
      bgCanvas x y = (gradFill height y).toColor := by
  refine ⟨bgCanvas_eq_bgRowFill, fun x y hx hy => ?_⟩
  rw [bgCanvas_eval, if_pos ⟨hy, hx⟩]

/-- Claim C8 witness: pixel (5, 7). -/
theorem claim_C8_witness :
    bgCanvas 5 7 = (gradFill height 7).toColor :=
  claim_C8.2 5 7 (by norm_num [width]) (by norm_num [height])

/-- Claim C7 evaluation: the canvas is mode RGB, so the alpha components
of the decorative-circle fills are discarded — at the center of the
first circle the painted pixel is fully opaque white, not the alpha
blend of white over the gradient that the claim describes (that blend
would be `(78, 38, 98)`), so the background is replaced, not left
partially visible. -/
theorem claim_C7 :
    canvasAfterCircles 200 300 = ⟨255, 255, 255⟩ ∧
    alphaBlend (gradFill height 300).toColor ⟨255, 255, 255⟩ 25 = ⟨78, 38, 98⟩ ∧
    canvasAfterCircles 200 300 ≠
      alphaBlend (gradFill height 300).toColor ⟨255, 255, 255⟩ 25 := by
  have hsplit : canvasAfterCircles = circleCmds.foldl applyCmd bgCanvas := by
    unfold canvasAfterCircles bgCanvas
    rw [List.foldl_append]
  have h1 : canvasAfterCircles 200 300 = (⟨255, 255, 255⟩ : Color) := by
    rw [hsplit]
    simp only [circleCmds, circles, List.map_cons, List.map_nil,
      List.foldl_cons, List.foldl_nil, applyCmd]
    rw [if_neg (by norm_num [inEll]), if_neg (by norm_num [inEll]),
      if_neg (by norm_num [inEll]), if_pos (by norm_num [inEll])]
    rfl
  have h2 : alphaBlend (gradFill height 300).toColor ⟨255, 255, 255⟩ 25 =
      (⟨78, 38, 98⟩ : Color) := by decide
  exact ⟨h1, h2, by rw [h1, h2]; decide⟩

/-- Claim C9: for any sine/cosine pair satisfying the Pythagorean bound,
every primary-curl vertex, every secondary-curl vertex, and every point
of the two scissors ellipses lies strictly inside the logo disk of
radius 200 around the logo center. -/
theorem claim_C9 (sinDeg cosDeg : ℚ → ℚ)
    (hpyth : ∀ a : ℚ, sinDeg a ^ 2 + cosDeg a ^ 2 ≤ 1) :
    (∀ p ∈ curlPoints sinDeg cosDeg, inLogoDisk p) ∧
    (∀ p ∈ curl2Points sinDeg cosDeg, inLogoDisk p) ∧
    (∀ px py : ℚ, inEll (scissorsX - 15) (scissorsY - 15)
      (scissorsX + 15) (scissorsY + 15) px py → inLogoDisk (px, py)) ∧
    (∀ px py : ℚ, inEll (scissorsX + 20) (scissorsY - 15)
      (scissorsX + 50) (scissorsY + 15) px py → inLogoDisk (px, py)) := by
  have hcx : (centerX : ℚ) = 642 := by norm_num [centerX, width]
  have hcy : (centerY : ℚ) = 1189 := by norm_num [centerY, height]
  have hlr : (logoRadius : ℚ) = 200 := by norm_num [logoRadius]
  refine ⟨?_, ?_, ?_, ?_⟩
  · intro p hp
    rw [curlPoints_eq_map] at hp
    obtain ⟨a, _, rfl⟩ := List.mem_map.mp hp
    have h2 : sinDeg ((a : ℚ) * 2) ^ 2 ≤ 1 := by
      nlinarith [hpyth ((a : ℚ) * 2), sq_nonneg (cosDeg ((a : ℚ) * 2))]
    have key := curl1_bound (sinDeg (a : ℚ)) (cosDeg (a : ℚ))
      (sinDeg ((a : ℚ) * 2)) (hpyth (a : ℚ)) h2
    simp only [inLogoDisk, curlCenterX, curlCenterY, hcx, hcy, hlr]
    nlinarith [key]
  · intro p hp
    rw [curl2Points_eq_map] at hp
    obtain ⟨a, _, rfl⟩ := List.mem_map.mp hp
    have h2 : sinDeg ((a : ℚ) * (3 / 2)) ^ 2 ≤ 1 := by
      nlinarith [hpyth ((a : ℚ) * (3 / 2)), sq_nonneg (cosDeg ((a : ℚ) * (3 / 2)))]
    have key := curl2_bound (sinDeg (a : ℚ)) (cosDeg (a : ℚ))
      (sinDeg ((a : ℚ) * (3 / 2))) (hpyth (a : ℚ)) h2
    simp only [inLogoDisk, curlCenterX, curlCenterY, hcx, hcy, hlr]
    nlinarith [key]
  · intro px py h
    rw [inEll] at h
    norm_num [scissorsX, scissorsY, hcx, hcy] at h
    simp only [inLogoDisk, hcx, hcy, hlr]
    nlinarith [h, sq_nonneg (px - 722), sq_nonneg (py - 1269),
      sq_nonneg (px - 737), sq_nonneg (py - 1284)]
  · intro px py h
    rw [inEll] at h
    norm_num [scissorsX, scissorsY, hcx, hcy] at h
    simp only [inLogoDisk, hcx, hcy, hlr]
    nlinarith [h, sq_nonneg (px - 757), sq_nonneg (py - 1269),
      sq_nonneg (px - 772), sq_nonneg (py - 1284)]

/-- Claim C9 witness: the zero sine/cosine pair satisfies the
Pythagorean bound. -/
theorem claim_C9_witness :
    (∀ p ∈ curlPoints (fun _ => 0) (fun _ => 0), inLogoDisk p) ∧
    (∀ p ∈ curl2Points (fun _ => 0) (fun _ => 0), inLogoDisk p) ∧
    (∀ px py : ℚ, inEll (scissorsX - 15) (scissorsY - 15)
      (scissorsX + 15) (scissorsY + 15) px py → inLogoDisk (px, py)) ∧
    (∀ px py : ℚ, inEll (scissorsX + 20) (scissorsY - 15)
      (scissorsX + 50) (scissorsY + 15) px py → inLogoDisk (px, py)) :=
  claim_C9 (fun _ => 0) (fun _ => 0) (fun _ => by norm_num)

end CreateSplash
